import Mathlib

set_option maxRecDepth 40000

namespace Blendifi

/-!
Shallow embedding of the Blendifi transaction pipeline.

The definitions below are translated from the TypeScript sources
`src/lib/stellar-utils.ts` and `src/lib/contract-calls.ts` (the two files
contain byte-identical copies of the pipeline helpers), from the Borrow
screen `src/components/Borrow.tsx`, and from the asset table in
`src/lib/config.ts`.  Network and wallet interactions are black boxes in
the source, so they are modelled as environment records whose fields give
the outcome of each external call; the control flow around them is
embedded faithfully, including the try/catch structure.
-/

/-- Response of the RPC method `getTransaction(hash)` as inspected by
`waitForTransaction` (stellar-utils.ts lines 146-175, contract-calls.ts
lines 67-96): the code looks only at `status` being SUCCESS or FAILED, and
reads `resultMetaXdr` in the FAILED branch. Every other status string
falls through and is treated as not yet visible. -/
inductive PollResponse where
  | success
  | failed (resultMetaXdr : String)
  | notFound
deriving DecidableEq

/-- One observation of the polling call: either `getTransaction` resolved
with a response, or the awaited call itself threw (network error). -/
inductive PollObs where
  | response (r : PollResponse)
  | exn (e : String)
deriving DecidableEq

/-- Outcome of the statements inside the inner `try` of the polling loop
when no exception escapes: the SUCCESS branch returns from the function,
every other non-throwing path falls through to the sleep. -/
inductive IterOutcome where
  | returnSuccess
  | fallThrough
deriving DecidableEq

/-- Body of the inner `try` block of `waitForTransaction`: on SUCCESS the
function returns; on FAILED the code throws an Error whose message embeds
`resultMetaXdr`; a NOT_FOUND-style status falls through; an exception from
`getTransaction` propagates.  Errors produced here are caught by the inner
`catch`, which only logs and lets the loop continue. -/
def waitStep : PollObs → Except String IterOutcome
  | .exn e => .error e
  | .response .success => .ok .returnSuccess
  | .response (.failed resultMeta) => .error ("Transaction failed: " ++ resultMeta)
  | .response .notFound => .ok .fallThrough

/-- The attempt ceiling `maxAttempts` of the polling loop. -/
def maxAttempts : Nat := 30

/-- The sleep between polls, in milliseconds (`setTimeout(resolve, 1000)`). -/
def pollIntervalMs : Nat := 1000

/-- The `while (attempts < maxAttempts)` loop of `waitForTransaction`,
written with the remaining number of iterations as fuel.  `poll n` is the
observation of the n-th `getTransaction` call.  The first component is the
result of the function (the outer try/catch only logs and rethrows, so it
is the identity on results); the second component counts how many
`getTransaction` calls were performed.  The inner `catch` swallows any
error raised inside the `try` - including the Error thrown in the FAILED
branch - and continues waiting. -/
def waitLoop (poll : Nat → PollObs) : Nat → Nat → Except String Unit × Nat
  | _, 0 => (.error "Transaction confirmation timeout", 0)
  | attempt, fuel + 1 =>
    match waitStep (poll attempt) with
    | .ok .returnSuccess => (.ok (), 1)
    | .ok .fallThrough =>
      let r := waitLoop poll (attempt + 1) fuel
      (r.1, r.2 + 1)
    | .error _ =>
      let r := waitLoop poll (attempt + 1) fuel
      (r.1, r.2 + 1)

/-- The function `waitForTransaction`, modelled over the stream of poll
observations: result paired with the number of polls performed. -/
def waitForTransaction (poll : Nat → PollObs) : Except String Unit × Nat :=
  waitLoop poll 0 maxAttempts

/-! ## A model of IEEE-754 binary64 ("JavaScript number") arithmetic

The amount codec (stellar-utils.ts lines 243-255) and the Borrow screen
do their arithmetic on JavaScript numbers.  A finite binary64 value is
represented canonically as `m * 2 ^ e` with `m` odd (or `m = 0`,
`e = 0`); `none` stands for a non-finite value (NaN, or an infinity
produced by overflow).  Rounding is round-to-nearest, ties-to-even, with
a 53-bit significand, subnormal range down to `2 ^ (-1074)` and overflow
beyond `2 ^ 1024`.  None of the claims exercises infinities, so the
model conflates them with NaN. -/

/-- Floor of log2 on positive naturals, by structural recursion on fuel;
4096 bits is far beyond any number appearing in these computations. -/
def log2Aux : Nat → Nat → Nat
  | 0, _ => 0
  | fuel + 1, n => if 2 ≤ n then log2Aux fuel (n / 2) + 1 else 0

/-- Floor of log2 of a positive natural. -/
def log2N (n : Nat) : Nat := log2Aux 4096 n

/-- Decide whether the positive fraction a / b is below 2 ^ e. -/
def ltPow2 (a b : Nat) (e : Int) : Bool :=
  if 0 ≤ e then a < b * 2 ^ e.toNat else a * 2 ^ (-e).toNat < b

/-- Floor of log2 of the positive fraction a / b. -/
def flog2 (a b : Nat) : Int :=
  let e0 : Int := (log2N a : Int) - (log2N b : Int)
  let e1 : Int := if ltPow2 a b e0 then e0 - 1 else e0
  if ltPow2 a b (e1 + 1) then e1 else e1 + 1

/-- A finite binary64 value `m * 2 ^ e`; canonically `m` is odd, or
`m = 0` and `e = 0`. -/
structure D where
  m : Int
  e : Int
deriving DecidableEq, Repr

/-- Shift factors of two from the mantissa into the exponent. -/
def oddify : Nat → Int → Int → Int × Int
  | 0, m, e => (m, e)
  | fuel + 1, m, e => if m % 2 = 0 then oddify fuel (m / 2) (e + 1) else (m, e)

/-- Build a canonical `D` from any mantissa/exponent pair. -/
def mkD (m e : Int) : D :=
  if m = 0 then ⟨0, 0⟩
  else
    let p := oddify 64 m e
    ⟨p.1, p.2⟩

/-- Round the exact rational a / b (with b > 0) to the nearest binary64
value, ties to even; `none` is overflow to an infinity. -/
def rnd52 (a : Int) (b : Nat) : Option D :=
  if a = 0 then some ⟨0, 0⟩
  else
    let e := flog2 a.natAbs b
    let shift : Int := if e - 52 < -1074 then -1074 else e - 52
    let num : Int := if 0 ≤ shift then a else a * 2 ^ (-shift).toNat
    let den : Int := if 0 ≤ shift then (b : Int) * 2 ^ shift.toNat else (b : Int)
    let mf : Int := num.fdiv den
    let r2 : Int := 2 * (num - mf * den)
    let mr : Int :=
      if r2 < den then mf
      else if den < r2 then mf + 1
      else if mf % 2 = 0 then mf else mf + 1
    if 0 ≤ shift ∧ 2 ^ 1024 ≤ mr.natAbs * 2 ^ shift.toNat then none
    else some (mkD mr shift)

/-- Conversion of a bigint to a JavaScript number, `Number(x)`. -/
def jsOfInt (n : Int) : Option D := rnd52 n 1

/-- Multiplication of JavaScript numbers: exact product, then rounding. -/
def jsMul : Option D → Option D → Option D
  | some x, some y =>
    let e := x.e + y.e
    if 0 ≤ e then rnd52 (x.m * y.m * 2 ^ e.toNat) 1
    else rnd52 (x.m * y.m) (2 ^ (-e).toNat)
  | _, _ => none

/-- Division of JavaScript numbers: exact quotient, then rounding;
division by zero gives an infinity (`none`). -/
def jsDiv : Option D → Option D → Option D
  | some x, some y =>
    if y.m = 0 then none
    else
      let s : Int := x.e - y.e
      let a : Int := if 0 ≤ s then x.m * 2 ^ s.toNat else x.m
      let b : Int := if 0 ≤ s then y.m else y.m * 2 ^ (-s).toNat
      if 0 ≤ b then rnd52 a b.natAbs else rnd52 (-a) b.natAbs
  | _, _ => none

/-- Strict order on finite binary64 values. -/
def dLt (x y : D) : Bool :=
  if x.e ≤ y.e then x.m < y.m * 2 ^ (y.e - x.e).toNat
  else x.m * 2 ^ (x.e - y.e).toNat < y.m

/-- The JavaScript `<` operator: false when either side is NaN. -/
def jsLt : Option D → Option D → Bool
  | some x, some y => dLt x y
  | _, _ => false

/-- Non-strict order on finite binary64 values. -/
def dLe (x y : D) : Bool :=
  if x.e ≤ y.e then x.m ≤ y.m * 2 ^ (y.e - x.e).toNat
  else x.m * 2 ^ (x.e - y.e).toNat ≤ y.m

/-- The JavaScript `<=` operator: false when either side is NaN. -/
def jsLe : Option D → Option D → Bool
  | some x, some y => dLe x y
  | _, _ => false

/-- `Math.floor` on a finite binary64 value (exact). -/
def dFloor (x : D) : Int :=
  if 0 ≤ x.e then x.m * 2 ^ x.e.toNat else x.m.fdiv (2 ^ (-x.e).toNat)

/-- Numeric value of a list of decimal digit characters. -/
def digitsVal (l : List Char) : Nat :=
  l.foldl (fun acc c => acc * 10 + (c.toNat - 48)) 0

/-- Exact value of a parsed decimal literal, as a numerator over a
power-of-ten denominator. -/
def decFrac (neg : Bool) (ip fp : List Char) : Int × Nat :=
  let den : Nat := 10 ^ fp.length
  let mag : Int := (digitsVal ip : Int) * (den : Int) + (digitsVal fp : Int)
  (if neg then -mag else mag, den)

/-- Model of JavaScript parseFloat, restricted to literals of the form
sign? digits? ('.' digits?)? .  Real parseFloat additionally skips
leading whitespace, accepts exponent forms and Infinity, and ignores
trailing garbage; none of the claims exercises those forms.  A string
with no leading digits parses to NaN (`none`). -/
def parseFloatD (s : String) : Option D :=
  let l := s.toList
  let sr : Bool × List Char :=
    match l with
    | '-' :: rest => (true, rest)
    | '+' :: rest => (false, rest)
    | _ => (false, l)
  let ip := sr.2.takeWhile Char.isDigit
  let l2 := sr.2.dropWhile Char.isDigit
  let fp : List Char :=
    match l2 with
    | '.' :: rest => rest.takeWhile Char.isDigit
    | _ => []
  if ip = [] ∧ fp = [] then none
  else
    let q := decFrac sr.1 ip fp
    rnd52 q.1 q.2

/-- Model of the JavaScript Number() conversion of a string: the whole
string must be a decimal literal (same restrictions as `parseFloatD`);
the empty string converts to 0; anything else is NaN. -/
def jsNumberOfString (s : String) : Option D :=
  let l := s.toList
  if l = [] then some ⟨0, 0⟩
  else
    let sr : Bool × List Char :=
      match l with
      | '-' :: rest => (true, rest)
      | '+' :: rest => (false, rest)
      | _ => (false, l)
    let ip := sr.2.takeWhile Char.isDigit
    let l2 := sr.2.dropWhile Char.isDigit
    let fr : List Char × List Char :=
      match l2 with
      | '.' :: rest => (rest.takeWhile Char.isDigit, rest.dropWhile Char.isDigit)
      | _ => ([], l2)
    if (ip = [] ∧ fr.1 = []) ∨ fr.2 ≠ [] then none
    else
      let q := decFrac sr.1 ip fr.1
      rnd52 q.1 q.2

deriving instance DecidableEq for Except

/-! ## Asset configuration and the amount codec -/

/-- The asset addresses object ASSET_ADDRESSES of stellar-utils.ts. -/
def XLM_ADDRESS : String := "native"

def BLND_ADDRESS : String := "GDJEHTBE6ZHUXSWFI642DCGLUOECLHPF3KSXHPXTSTJ7E3JF6MQ5EZYY"

def USDC_ADDRESS : String := "GBBD47IF6LWK7P7MDEVSCWR7DPUWV3NY3DTQEVFL4NAT4AQH3ZLLFLA5"

def wETH_ADDRESS : String := "GBETHKBLNBSBXVLTKWLB6L3X3RTMAKKI64JUNNQO5EUXYYTYO3O3G2YH"

def wBTC_ADDRESS : String := "GDXTJEK4JZNSTNQAWA53RZNS2MDXYD2SMT6Q7JH2CU2B6Y2DRX6XM3UB"

/-- getAssetDecimals (stellar-utils.ts lines 230-240): decimal places per
asset address; unknown addresses default to 7. -/
def getAssetDecimals (assetAddress : String) : Nat :=
  if assetAddress = XLM_ADDRESS then 7
  else if assetAddress = BLND_ADDRESS then 7
  else if assetAddress = USDC_ADDRESS then 6
  else if assetAddress = wETH_ADDRESS then 18
  else if assetAddress = wBTC_ADDRESS then 8
  else 7

/-- The tail of toContractAmount after parseFloat has produced a number:
the source computes BigInt(Math.floor(amount * Number(factor))) with
factor = BigInt(10 ** decimals).  Math.floor of a finite number is exact
and BigInt of it is exact; BigInt of NaN or an infinity throws a
RangeError. -/
def toContractAmountOfNum (v : Option D) (assetAddress : String) : Except String Int :=
  let decimals := getAssetDecimals assetAddress
  let factor : Int := 10 ^ decimals
  match jsMul v (jsOfInt factor) with
  | none => Except.error "RangeError: cannot convert to BigInt"
  | some p => Except.ok (dFloor p)

/-- toContractAmount (stellar-utils.ts lines 243-248): parseFloat the
human amount and scale it to base units with double arithmetic. -/
def toContractAmount (humanAmount : String) (assetAddress : String) : Except String Int :=
  toContractAmountOfNum (parseFloatD humanAmount) assetAddress

/-- Numeric value denoted by the string that fromContractAmount
(stellar-utils.ts lines 251-255) returns: the source computes
(Number(contractAmount) / Number(factor)).toString().  ECMA-262
Number::toString yields a decimal string that converts back to exactly
the same number, so the returned string is embedded here by its numeric
denotation: every downstream use of the string goes through parseFloat
or Number and recovers exactly this value. -/
def fromContractAmountVal (contractAmount : Int) (assetAddress : String) : Option D :=
  let decimals := getAssetDecimals assetAddress
  let factor : Int := 10 ^ decimals
  jsDiv (jsOfInt contractAmount) (jsOfInt factor)

/-- The round trip of claim C5: convert a base-unit amount to its
human-readable string and feed that string back to toContractAmount. -/
def codecRoundTrip (x : Int) (assetAddress : String) : Except String Int :=
  toContractAmountOfNum (fromContractAmountVal x assetAddress) assetAddress

/-! ## The operation pipelines

Each operation function in stellar-utils.ts / contract-calls.ts runs the
same sequence: getNetwork, getAccount, build the contract invocation,
simulateTransaction, signAndSubmitTransaction, sendTransaction, and
waitForTransaction when the submission is PENDING.  The remote endpoints
and the wallet are black boxes, modelled by an environment record giving
the outcome of each external call; alongside its result, each embedded
function returns the list of external calls it performed, in order. -/

/-- Typed Soroban values as produced by nativeToScVal in the sources. -/
inductive ScVal where
  | address (a : String)
  | u128 (n : Int)
  | u64 (n : Int)
  | scBool (b : Bool)
deriving DecidableEq

/-- A contract invocation: method name and ordered argument list, as
passed to contract.call. -/
structure ContractCall where
  method : String
  args : List ScVal
deriving DecidableEq

/-- Outcome of simulateTransaction: the awaited call threw, the response
satisfies isSimulationError (carrying sim.error), or it succeeded with an
optional decoded return value. -/
inductive SimOutcome where
  | exn (e : String)
  | simError (err : String)
  | ok (retval : Option Int)
deriving DecidableEq

/-- Outcome of the wallet's signTransaction: the awaited call threw, it
resolved with an error field (whose message may be absent), or it
resolved with the signed envelope. -/
inductive SignOutcome where
  | exn (e : String)
  | errorResult (msg : Option String)
  | signed (signedTxXdr : String)
deriving DecidableEq

/-- Outcome of sendTransaction: the awaited call threw, or it resolved
with a status string and a transaction hash. -/
inductive SendOutcome where
  | exn (e : String)
  | result (status : String) (hash : String)
deriving DecidableEq

/-- The environment of one operation run: outcomes of every external
interaction the pipeline may perform. -/
structure OpEnv where
  network : Except Unit String
  account : Except String Unit
  freighterInstalled : Bool
  simulate : SimOutcome
  sign : SignOutcome
  send : SendOutcome
  poll : Nat → PollObs

/-- External calls observable during a run, in order. -/
inductive Event where
  | getNetworkCall
  | getAccountCall (user : String)
  | simulateCall (c : ContractCall)
  | signCall (c : ContractCall)
  | sendCall (signedTxXdr : String)
  | pollCall (n : Nat)
deriving DecidableEq

/-- JavaScript values returned by the operation functions: swap, supply
and borrow resolve with the transaction hash string, unstake with a
bigint, stake with undefined. -/
inductive JsVal where
  | undef
  | str (s : String)
  | int (n : Int)
deriving DecidableEq

/-- signAndSubmitTransaction (stellar-utils.ts lines 121-143): check the
extension is installed, call the wallet's signTransaction, rethrow its
error (with the default message 'Transaction signing failed' when the
error has no message) and return the signed XDR on success.  The second
component records whether the wallet sign function was invoked. -/
def signAndSubmitTransaction (env : OpEnv) (txXdr : ContractCall) :
    Except String String × List Event :=
  if env.freighterInstalled = false then
    (.error "Freighter wallet is not installed", [])
  else
    match env.sign with
    | .exn e => (.error e, [.signCall txXdr])
    | .errorResult (some msg) => (.error msg, [.signCall txXdr])
    | .errorResult none => (.error "Transaction signing failed", [.signCall txXdr])
    | .signed xdr => (.ok xdr, [.signCall txXdr])

/-- stakeBTokens (stellar-utils.ts lines 258-309): stake_blend pipeline;
resolves with undefined on success. -/
def stakeBTokens (env : OpEnv) (amount : Int) (userPublicKey : String) :
    Except String JsVal × List Event :=
  match env.network with
  | .error _ => (.error "Failed to get network", [.getNetworkCall])
  | .ok _ =>
    match env.account with
    | .error e => (.error e, [.getNetworkCall, .getAccountCall userPublicKey])
    | .ok _ =>
      let inv : ContractCall := ⟨"stake_blend", [.address userPublicKey, .u128 amount]⟩
      let pre : List Event :=
        [.getNetworkCall, .getAccountCall userPublicKey, .simulateCall inv]
      match env.simulate with
      | .exn e => (.error e, pre)
      | .simError err => (.error ("Staking simulation failed: " ++ err), pre)
      | .ok _ =>
        let sr := signAndSubmitTransaction env inv
        match sr.1 with
        | .error e => (.error e, pre ++ sr.2)
        | .ok signedXdr =>
          match env.send with
          | .exn e => (.error e, pre ++ sr.2 ++ [.sendCall signedXdr])
          | .result status _hash =>
            if status = "PENDING" then
              let w := waitForTransaction env.poll
              let evts := pre ++ sr.2 ++ [Event.sendCall signedXdr] ++
                (List.range w.2).map Event.pollCall
              match w.1 with
              | .error e => (.error e, evts)
              | .ok _ => (.ok .undef, evts)
            else
              (.error ("Transaction failed: " ++ status),
                pre ++ sr.2 ++ [.sendCall signedXdr])

/-- unstakeBTokens (stellar-utils.ts lines 311-369): unstake_blend
pipeline; on success resolves with the simulation's decoded return value
(the claimed rewards) or the bigint 0 when the simulation carried none. -/
def unstakeBTokens (env : OpEnv) (amount : Int) (userPublicKey : String) :
    Except String JsVal × List Event :=
  match env.network with
  | .error _ => (.error "Failed to get network", [.getNetworkCall])
  | .ok _ =>
    match env.account with
    | .error e => (.error e, [.getNetworkCall, .getAccountCall userPublicKey])
    | .ok _ =>
      let inv : ContractCall := ⟨"unstake_blend", [.address userPublicKey, .u128 amount]⟩
      let pre : List Event :=
        [.getNetworkCall, .getAccountCall userPublicKey, .simulateCall inv]
      match env.simulate with
      | .exn e => (.error e, pre)
      | .simError err => (.error ("Unstaking simulation failed: " ++ err), pre)
      | .ok rv =>
        let sr := signAndSubmitTransaction env inv
        match sr.1 with
        | .error e => (.error e, pre ++ sr.2)
        | .ok signedXdr =>
          match env.send with
          | .exn e => (.error e, pre ++ sr.2 ++ [.sendCall signedXdr])
          | .result status _hash =>
            if status = "PENDING" then
              let w := waitForTransaction env.poll
              let evts := pre ++ sr.2 ++ [Event.sendCall signedXdr] ++
                (List.range w.2).map Event.pollCall
              match w.1 with
              | .error e => (.error e, evts)
              | .ok _ => (.ok (.int (rv.getD 0)), evts)
            else
              (.error ("Transaction failed: " ++ status),
                pre ++ sr.2 ++ [.sendCall signedXdr])

/-- swapTokens (stellar-utils.ts lines 371-434): swap_tokens pipeline;
resolves with the transaction hash on success. -/
def swapTokens (env : OpEnv) (tokenA tokenB : String)
    (amountIn minAmountOut deadline : Int) (userPublicKey : String) :
    Except String JsVal × List Event :=
  match env.network with
  | .error _ => (.error "Failed to get network", [.getNetworkCall])
  | .ok _ =>
    match env.account with
    | .error e => (.error e, [.getNetworkCall, .getAccountCall userPublicKey])
    | .ok _ =>
      let inv : ContractCall :=
        ⟨"swap_tokens",
          [.address userPublicKey, .address tokenA, .address tokenB,
            .u128 amountIn, .u128 minAmountOut, .u64 deadline]⟩
      let pre : List Event :=
        [.getNetworkCall, .getAccountCall userPublicKey, .simulateCall inv]
      match env.simulate with
      | .exn e => (.error e, pre)
      | .simError err => (.error ("Swap simulation failed: " ++ err), pre)
      | .ok _ =>
        let sr := signAndSubmitTransaction env inv
        match sr.1 with
        | .error e => (.error e, pre ++ sr.2)
        | .ok signedXdr =>
          match env.send with
          | .exn e => (.error e, pre ++ sr.2 ++ [.sendCall signedXdr])
          | .result status hash =>
            if status = "PENDING" then
              let w := waitForTransaction env.poll
              let evts := pre ++ sr.2 ++ [Event.sendCall signedXdr] ++
                (List.range w.2).map Event.pollCall
              match w.1 with
              | .error e => (.error e, evts)
              | .ok _ => (.ok (.str hash), evts)
            else
              (.error ("Transaction failed: " ++ status),
                pre ++ sr.2 ++ [.sendCall signedXdr])

/-- supplyToBlend (stellar-utils.ts lines 436-495): supply_to_blend
pipeline; resolves with the transaction hash on success. -/
def supplyToBlend (env : OpEnv) (asset : String) (amount : Int)
    (asCollateral : Bool) (userPublicKey : String) :
    Except String JsVal × List Event :=
  match env.network with
  | .error _ => (.error "Failed to get network", [.getNetworkCall])
  | .ok _ =>
    match env.account with
    | .error e => (.error e, [.getNetworkCall, .getAccountCall userPublicKey])
    | .ok _ =>
      let inv : ContractCall :=
        ⟨"supply_to_blend",
          [.address userPublicKey, .address asset, .u128 amount, .scBool asCollateral]⟩
      let pre : List Event :=
        [.getNetworkCall, .getAccountCall userPublicKey, .simulateCall inv]
      match env.simulate with
      | .exn e => (.error e, pre)
      | .simError err => (.error ("Supply simulation failed: " ++ err), pre)
      | .ok _ =>
        let sr := signAndSubmitTransaction env inv
        match sr.1 with
        | .error e => (.error e, pre ++ sr.2)
        | .ok signedXdr =>
          match env.send with
          | .exn e => (.error e, pre ++ sr.2 ++ [.sendCall signedXdr])
          | .result status hash =>
            if status = "PENDING" then
              let w := waitForTransaction env.poll
              let evts := pre ++ sr.2 ++ [Event.sendCall signedXdr] ++
                (List.range w.2).map Event.pollCall
              match w.1 with
              | .error e => (.error e, evts)
              | .ok _ => (.ok (.str hash), evts)
            else
              (.error ("Transaction failed: " ++ status),
                pre ++ sr.2 ++ [.sendCall signedXdr])

/-- borrowFromBlend (stellar-utils.ts lines 497-554): borrow_from_blend
pipeline; resolves with the transaction hash on success. -/
def borrowFromBlend (env : OpEnv) (asset : String) (amount : Int)
    (userPublicKey : String) : Except String JsVal × List Event :=
  match env.network with
  | .error _ => (.error "Failed to get network", [.getNetworkCall])
  | .ok _ =>
    match env.account with
    | .error e => (.error e, [.getNetworkCall, .getAccountCall userPublicKey])
    | .ok _ =>
      let inv : ContractCall :=
        ⟨"borrow_from_blend", [.address userPublicKey, .address asset, .u128 amount]⟩
      let pre : List Event :=
        [.getNetworkCall, .getAccountCall userPublicKey, .simulateCall inv]
      match env.simulate with
      | .exn e => (.error e, pre)
      | .simError err => (.error ("Borrow simulation failed: " ++ err), pre)
      | .ok _ =>
        let sr := signAndSubmitTransaction env inv
        match sr.1 with
        | .error e => (.error e, pre ++ sr.2)
        | .ok signedXdr =>
          match env.send with
          | .exn e => (.error e, pre ++ sr.2 ++ [.sendCall signedXdr])
          | .result status hash =>
            if status = "PENDING" then
              let w := waitForTransaction env.poll
              let evts := pre ++ sr.2 ++ [Event.sendCall signedXdr] ++
                (List.range w.2).map Event.pollCall
              match w.1 with
              | .error e => (.error e, evts)
              | .ok _ => (.ok (.str hash), evts)
            else
              (.error ("Transaction failed: " ++ status),
                pre ++ sr.2 ++ [.sendCall signedXdr])

/-- Environment in which the simulation reports a contract diagnostic
while every later stage would succeed. -/
def simErrorEnv : OpEnv :=
  { network := .ok "TESTNET", account := .ok (), freighterInstalled := true,
    simulate := .simError "contract reverted", sign := .signed "SIGNEDXDR",
    send := .result "PENDING" "abc123", poll := fun _ => .response .success }

/-- Environment in which the wallet rejects the signing request while
everything before and after would succeed. -/
def signRejectEnv : OpEnv :=
  { network := .ok "TESTNET", account := .ok (), freighterInstalled := true,
    simulate := .ok none, sign := .errorResult (some "User declined access"),
    send := .result "PENDING" "abc123", poll := fun _ => .response .success }

/-- Environment in which every stage of a pipeline succeeds; the
submission hash is "abc123" and the first poll confirms. -/
def successEnv : OpEnv :=
  { network := .ok "TESTNET", account := .ok (), freighterInstalled := true,
    simulate := .ok none, sign := .signed "SIGNEDXDR",
    send := .result "PENDING" "abc123", poll := fun _ => .response .success }

/-! ## Read-only queries -/

/-- Decoded JavaScript values observed by the read-only queries: a
number, a position-shaped object, or some other decoded value. -/
inductive JsAny where
  | num (x : D)
  | position (supplied : List (String × Int)) (borrowed : List (String × Int))
      (healthFactor : D)
  | other (tag : Nat)
deriving DecidableEq

/-- The fallback object of getUserPosition: empty supplied and borrowed
maps and healthFactor 1.5 (the double 3 * 2 ^ (-1)). -/
def placeholderPosition : JsAny := .position [] [] ⟨3, -1⟩

/-- Outcome of simulateTransaction in the read-only queries, whose
return value decodes to an arbitrary JavaScript value. -/
inductive QuerySimOutcome where
  | exn (e : String)
  | simError (err : String)
  | ok (retval : Option JsAny)
deriving DecidableEq

/-- Environment of one read-only query run. -/
structure QueryEnv where
  network : Except Unit String
  account : Except String Unit
  simulate : QuerySimOutcome

/-- Body of the `try` block of getUserPosition (stellar-utils.ts lines
557-603): failures of getNetwork, getAccount and the simulateTransaction
await throw; a simulation error or a missing return value return the
placeholder inline; a present return value is decoded and returned. -/
def getUserPositionBody (env : QueryEnv) : Except String JsAny :=
  match env.network with
  | .error _ => .error "Failed to get network"
  | .ok _ =>
    match env.account with
    | .error e => .error e
    | .ok _ =>
      match env.simulate with
      | .exn e => .error e
      | .simError _ => .ok placeholderPosition
      | .ok none => .ok placeholderPosition
      | .ok (some v) => .ok v

/-- getUserPosition (stellar-utils.ts lines 556-612): the outer catch
turns every exception into the placeholder object, so the function never
throws. -/
def getUserPosition (env : QueryEnv) : JsAny :=
  match getUserPositionBody env with
  | .error _ => placeholderPosition
  | .ok v => v

/-- The JavaScript Number() conversion of a decoded value, as applied by
getHealthStatus to the simulation's return value: numbers pass through,
non-numeric shapes are NaN. -/
def jsNumberOfAny : JsAny → Option D
  | .num x => some x
  | _ => none

/-- Body of the `try` block of getHealthStatus (stellar-utils.ts lines
615-655): same structure as getUserPosition, returning the number 1.5 on
the inline fallback paths and Number() of the decoded value otherwise. -/
def getHealthStatusBody (env : QueryEnv) : Except String (Option D) :=
  match env.network with
  | .error _ => .error "Failed to get network"
  | .ok _ =>
    match env.account with
    | .error e => .error e
    | .ok _ =>
      match env.simulate with
      | .exn e => .error e
      | .simError _ => .ok (some ⟨3, -1⟩)
      | .ok none => .ok (some ⟨3, -1⟩)
      | .ok (some v) => .ok (jsNumberOfAny v)

/-- getHealthStatus (stellar-utils.ts lines 614-660): the outer catch
turns every exception into the number 1.5, so the function never
throws. -/
def getHealthStatus (env : QueryEnv) : Option D :=
  match getHealthStatusBody env with
  | .error _ => some ⟨3, -1⟩
  | .ok v => v

/-! ## The Borrow screen -/

/-- One entry of CONFIG.SUPPORTED_ASSETS (config.ts), with the fields
the Borrow screen reads. -/
structure AssetInfo where
  address : String
  symbol : String
  decimals : Nat
  collateralFactor : Nat
deriving DecidableEq

/-- The five supported assets of config.ts. -/
def SUPPORTED_ASSETS : List AssetInfo :=
  [⟨"native", "XLM", 7, 7000⟩,
    ⟨"GDJEHTBE6ZHUXSWFI642DCGLUOECLHPF3KSXHPXTSTJ7E3JF6MQ5EZYY", "BLND", 7, 6500⟩,
    ⟨"GBBD47IF6LWK7P7MDEVSCWR7DPUWV3NY3DTQEVFL4NAT4AQH3ZLLFLA5", "USDC", 6, 8500⟩,
    ⟨"GBETHKBLNBSBXVLTKWLB6L3X3RTMAKKI64JUNNQO5EUXYYTYO3O3G2YH", "wETH", 18, 7500⟩,
    ⟨"GDXTJEK4JZNSTNQAWA53RZNS2MDXYD2SMT6Q7JH2CU2B6Y2DRX6XM3UB", "wBTC", 8, 7500⟩]

/-- The component state of the Borrow screen that its validation and
submission read. -/
structure BorrowState where
  isConnected : Bool
  publicKey : Option String
  amount : String
  maxBorrowable : String
  projectedHealth : String
  asset : String
deriving DecidableEq

/-- The selectedAsset lookup of Borrow.tsx line 29. -/
def selectedAsset (st : BorrowState) : Option AssetInfo :=
  SUPPORTED_ASSETS.find? (fun a => a.address == st.asset)

/-- The double literal 1.1, the health-factor safety minimum compared
against in Borrow.tsx line 60. -/
def onePointOne : Option D := rnd52 11 10

/-- The form-error record of the Borrow screen. -/
structure FormErrors where
  amount : Option String
  general : Option String
deriving DecidableEq

/-- validateAmount (Borrow.tsx lines 32-47): empty or blank input is
required; NaN or non-positive input must be greater than 0; input above
the parsed maxBorrowable exceeds the maximum (the message interpolates
the maxBorrowable string and the selected asset's symbol, 'undefined'
when no asset matches). -/
def validateAmount (st : BorrowState) : Option String :=
  if st.amount.toList.all (fun c => c = ' ') then some "Amount is required"
  else
    let numValue := jsNumberOfString st.amount
    if numValue.isNone ∨ jsLe numValue (some ⟨0, 0⟩) = true then
      some "Amount must be greater than 0"
    else if jsLt (jsNumberOfString st.maxBorrowable) numValue then
      some ("Amount exceeds maximum borrowable (" ++ st.maxBorrowable ++ " " ++
        ((selectedAsset st).elim "undefined" AssetInfo.symbol) ++ ")")
    else none

/-- validateForm (Borrow.tsx lines 49-67): a disconnected wallet is a
general connect error; otherwise the amount is validated and the
projected-health guard sets the general error when the projected health
factor is not the sentinel "Error" and compares below the 1.1 literal. -/
def validateForm (st : BorrowState) : FormErrors :=
  if st.isConnected = false ∨ st.publicKey = none then
    ⟨none, some "Please connect your Freighter wallet"⟩
  else
    let amountError := validateAmount st
    let generalError :=
      if st.projectedHealth ≠ "Error" ∧
          jsLt (jsNumberOfString st.projectedHealth) onePointOne = true then
        some "This borrow would make your position too risky (health factor < 1.1)"
      else none
    ⟨amountError, generalError⟩

/-- The boolean validateForm returns: no recorded errors. -/
def validateFormOk (st : BorrowState) : Bool :=
  (validateForm st).amount.isNone && (validateForm st).general.isNone

/-- UI and network actions of the Borrow screen's submission handler. -/
inductive UiEvent where
  | showToastLoading
  | borrowCall (asset : String) (amount : Int) (user : String)
  | toastSuccess (hash : String)
  | toastError (message : String)
  | reloadUserData
deriving DecidableEq

/-- Outcome of the borrowFromBlend call made by the Borrow screen. -/
structure BorrowNet where
  borrowResult : Except String String

/-- handleBorrow (Borrow.tsx lines 228-278), as the ordered list of
actions it performs: a failed validateForm returns before anything else;
otherwise the loading toast is shown, the amount is scaled with
BigInt(Math.floor(Number(amount) * Math.pow(10, decimals))),
borrowFromBlend is called, and the toast is updated with the outcome
(followed by the user-data reload on success); an exception inside the
try (no matching asset, BigInt of a non-finite number) becomes an error
toast without any network call. -/
def handleBorrow (net : BorrowNet) (st : BorrowState) : List UiEvent :=
  if validateFormOk st = false then []
  else
    match selectedAsset st with
    | none => [.showToastLoading, .toastError "Invalid asset selected"]
    | some a =>
      match jsMul (jsNumberOfString st.amount) (rnd52 (10 ^ a.decimals) 1) with
      | none => [.showToastLoading, .toastError "RangeError: cannot convert to BigInt"]
      | some p =>
        match net.borrowResult with
        | .error e =>
          [.showToastLoading, .borrowCall st.asset (dFloor p) (st.publicKey.getD ""),
            .toastError e]
        | .ok hash =>
          [.showToastLoading, .borrowCall st.asset (dFloor p) (st.publicKey.getD ""),
            .toastSuccess hash, .reloadUserData]

/-- Concrete Borrow states for the C7 witness: connected, amount 5 of
XLM with max 10; the first projects health 1.099, the second exactly
1.1. -/
def rejectState : BorrowState :=
  ⟨true, some "GUSER", "5", "10", "1.099", "native"⟩

def proceedState : BorrowState :=
  ⟨true, some "GUSER", "5", "10", "1.1", "native"⟩

def demoNet : BorrowNet := ⟨Except.ok "abc123"⟩

/-! The theorems: claim statements, their witnesses, and helper lemmas. -/

/-- Helper: when every poll reports the transaction as not yet visible,
the loop consumes all its fuel and times out. -/
theorem waitLoop_notFound (poll : Nat → PollObs)
    (h : ∀ n, poll n = PollObs.response PollResponse.notFound) :
    ∀ fuel attempt, waitLoop poll attempt fuel =
      (Except.error "Transaction confirmation timeout", fuel) := by
  intro fuel
  induction fuel with
  | zero => intro attempt; rfl
  | succ k ih =>
    intro attempt
    simp [waitLoop, h, waitStep, ih]

/-- C2: if every confirmation poll reports the transaction as not yet
visible, `waitForTransaction` performs exactly 30 poll attempts and then
fails with the error message 'Transaction confirmation timeout' - not
earlier and not later. -/
theorem c2_poll_termination (poll : Nat → PollObs)
    (h : ∀ n, poll n = PollObs.response PollResponse.notFound) :
    waitForTransaction poll =
      (Except.error "Transaction confirmation timeout", 30) := by
  have h30 := waitLoop_notFound poll h maxAttempts 0
  simpa [waitForTransaction, maxAttempts] using h30

/-- Witness for C2: the constant not-yet-visible poll stub terminates with
the timeout error after exactly 30 polls. -/
theorem c2_poll_termination_witness :
    waitForTransaction (fun _ => PollObs.response PollResponse.notFound) =
      (Except.error "Transaction confirmation timeout", 30) :=
  c2_poll_termination (fun _ => PollObs.response PollResponse.notFound)
    (fun _ => rfl)

/-- C1 (code bug): the FAILED branch of the polling loop does construct an
Error carrying the chain's `resultMetaXdr` verbatim, but that throw sits
inside the same `try` whose `catch` treats every error as "transaction not
ready yet".  The failure is therefore swallowed, polling continues, and a
transaction whose status is FAILED on every poll ends in the
'Transaction confirmation timeout' error after all 30 attempts instead of
ending the pipeline immediately with the on-chain failure. -/
theorem c1_failed_poll_swallowed :
    waitStep (PollObs.response (PollResponse.failed "AAAAAgAAAAA=")) =
      Except.error ("Transaction failed: " ++ "AAAAAgAAAAA=") ∧
    waitForTransaction (fun _ => PollObs.response (PollResponse.failed "AAAAAgAAAAA=")) =
      (Except.error "Transaction confirmation timeout", 30) := by
  constructor
  · rfl
  · rfl

/-- C5 counterexample: the round trip is not the identity on all
non-negative base-unit amounts.  At max-safe-integer scale the initial
Number() conversion collapses distinct integers, so 2 ^ 53 = 9007199254740992
and 2 ^ 53 + 1 cannot both round-trip; in fact the second round-trips to
the first. -/
theorem c5_counterexample :
    ¬ (codecRoundTrip 9007199254740992 XLM_ADDRESS = Except.ok 9007199254740992 ∧
       codecRoundTrip 9007199254740993 XLM_ADDRESS = Except.ok 9007199254740993) := by
  decide

/-- C5 amended: the round trip is exact at the representative values 0
and 1 for every supported asset, but it cannot hold for every
non-negative integer: Number() conversion of the base-unit bigint is
lossy at max-safe-integer scale, collapsing 2 ^ 53 + 1 with 2 ^ 53, and
the collapsed value round-trips to 2 ^ 53. -/
theorem c5_roundTrip_amended :
    (codecRoundTrip 0 XLM_ADDRESS = Except.ok 0 ∧
      codecRoundTrip 1 XLM_ADDRESS = Except.ok 1) ∧
    (codecRoundTrip 0 BLND_ADDRESS = Except.ok 0 ∧
      codecRoundTrip 1 BLND_ADDRESS = Except.ok 1) ∧
    (codecRoundTrip 0 USDC_ADDRESS = Except.ok 0 ∧
      codecRoundTrip 1 USDC_ADDRESS = Except.ok 1) ∧
    (codecRoundTrip 0 wETH_ADDRESS = Except.ok 0 ∧
      codecRoundTrip 1 wETH_ADDRESS = Except.ok 1) ∧
    (codecRoundTrip 0 wBTC_ADDRESS = Except.ok 0 ∧
      codecRoundTrip 1 wBTC_ADDRESS = Except.ok 1) ∧
    fromContractAmountVal 9007199254740993 XLM_ADDRESS =
      fromContractAmountVal 9007199254740992 XLM_ADDRESS ∧
    codecRoundTrip 9007199254740993 XLM_ADDRESS = Except.ok 9007199254740992 := by
  decide

/-- C6 counterexample: toContractAmount does not validate its input: the
negative amount string "-5" is converted like any other value and yields
the negative base-unit amount -50000000 for XLM, instead of failing with
an InvalidAmount error as the claim states. -/
theorem c6_counterexample :
    toContractAmount "-5" XLM_ADDRESS = Except.ok (-50000000) := by
  decide

/-- C6 amended: toContractAmount performs no validation of its own.  Its
only failure mode is the RangeError raised by the BigInt conversion when
the parsed value is not finite (non-numeric input, or an overflowing
product); every string that parses to a finite number - negative ones
included - is converted, and the result is the floor of the
double-rounded product, which can be one below the exact floor of
value * 10 ^ decimals: the string "0.5115" at the 6 decimals of USDC
gives 511499 rather than 511500. -/
theorem c6_toContractAmount_amended :
    (∀ (s a e : String), toContractAmount s a = Except.error e →
        e = "RangeError: cannot convert to BigInt") ∧
    (∀ (s a : String), parseFloatD s = none →
        toContractAmount s a = Except.error "RangeError: cannot convert to BigInt") ∧
    toContractAmount "0.5115" USDC_ADDRESS = Except.ok 511499 := by
  refine ⟨?_, ?_, by decide⟩
  · intro s a e h
    simp only [toContractAmount, toContractAmountOfNum] at h
    cases hm : jsMul (parseFloatD s) (jsOfInt (10 ^ getAssetDecimals a)) with
    | none =>
      rw [hm] at h
      simp only [Except.error.injEq] at h
      exact h.symm
    | some p =>
      rw [hm] at h
      simp at h
  · intro s a h
    simp only [toContractAmount, toContractAmountOfNum, h]
    rfl

/-- Witness for the amended C6 theorem: the non-numeric string "abc"
parses to NaN and toContractAmount fails with the RangeError. -/
theorem c6_toContractAmount_amended_witness :
    toContractAmount "abc" XLM_ADDRESS =
      Except.error "RangeError: cannot convert to BigInt" :=
  c6_toContractAmount_amended.2.1 "abc" XLM_ADDRESS (by decide)

/-- C3: in every operation pipeline that reaches the simulation step, a
simulation error fails the run with that operation's SimulationError
message carrying the contract diagnostic verbatim, and the wallet sign
function is never invoked. -/
theorem c3_simulation_error_blocks_signing
    (env : OpEnv) (net err : String)
    (amount minOut deadline : Int) (user tokenA tokenB asset : String)
    (asCollateral : Bool)
    (hnet : env.network = Except.ok net) (hacct : env.account = Except.ok ())
    (hsim : env.simulate = SimOutcome.simError err) :
    ((stakeBTokens env amount user).1 =
        Except.error ("Staking simulation failed: " ++ err) ∧
      ∀ c, Event.signCall c ∉ (stakeBTokens env amount user).2) ∧
    ((unstakeBTokens env amount user).1 =
        Except.error ("Unstaking simulation failed: " ++ err) ∧
      ∀ c, Event.signCall c ∉ (unstakeBTokens env amount user).2) ∧
    ((swapTokens env tokenA tokenB amount minOut deadline user).1 =
        Except.error ("Swap simulation failed: " ++ err) ∧
      ∀ c, Event.signCall c ∉ (swapTokens env tokenA tokenB amount minOut deadline user).2) ∧
    ((supplyToBlend env asset amount asCollateral user).1 =
        Except.error ("Supply simulation failed: " ++ err) ∧
      ∀ c, Event.signCall c ∉ (supplyToBlend env asset amount asCollateral user).2) ∧
    ((borrowFromBlend env asset amount user).1 =
        Except.error ("Borrow simulation failed: " ++ err) ∧
      ∀ c, Event.signCall c ∉ (borrowFromBlend env asset amount user).2) := by
  simp [stakeBTokens, unstakeBTokens, swapTokens, supplyToBlend, borrowFromBlend,
    hnet, hacct, hsim]

/-- Witness for C3: in `simErrorEnv` the stake pipeline fails with the
simulation diagnostic and never invokes the wallet sign function. -/
theorem c3_simulation_error_blocks_signing_witness :
    (stakeBTokens simErrorEnv 5 "GUSER").1 =
      Except.error ("Staking simulation failed: " ++ "contract reverted") ∧
    ∀ c, Event.signCall c ∉ (stakeBTokens simErrorEnv 5 "GUSER").2 :=
  (c3_simulation_error_blocks_signing simErrorEnv "TESTNET" "contract reverted"
    5 1 99 "GUSER" "native" "tb" "native" true rfl rfl rfl).1

/-- C4: in every operation pipeline that reaches the signing step, a
wallet signTransaction outcome that is not a signed envelope (an error
result or a thrown rejection) fails the run and sendTransaction is never
called. -/
theorem c4_signing_failure_blocks_submission
    (env : OpEnv) (net : String) (rv : Option Int)
    (amount minOut deadline : Int) (user tokenA tokenB asset : String)
    (asCollateral : Bool)
    (hnet : env.network = Except.ok net) (hacct : env.account = Except.ok ())
    (hsim : env.simulate = SimOutcome.ok rv)
    (hsign : ∀ x, env.sign ≠ SignOutcome.signed x) :
    ((∃ e, (stakeBTokens env amount user).1 = Except.error e) ∧
      ∀ s, Event.sendCall s ∉ (stakeBTokens env amount user).2) ∧
    ((∃ e, (unstakeBTokens env amount user).1 = Except.error e) ∧
      ∀ s, Event.sendCall s ∉ (unstakeBTokens env amount user).2) ∧
    ((∃ e, (swapTokens env tokenA tokenB amount minOut deadline user).1 = Except.error e) ∧
      ∀ s, Event.sendCall s ∉ (swapTokens env tokenA tokenB amount minOut deadline user).2) ∧
    ((∃ e, (supplyToBlend env asset amount asCollateral user).1 = Except.error e) ∧
      ∀ s, Event.sendCall s ∉ (supplyToBlend env asset amount asCollateral user).2) ∧
    ((∃ e, (borrowFromBlend env asset amount user).1 = Except.error e) ∧
      ∀ s, Event.sendCall s ∉ (borrowFromBlend env asset amount user).2) := by
  cases hs : env.sign with
  | signed x => exact absurd hs (hsign x)
  | exn e =>
    cases hfi : env.freighterInstalled <;>
      simp [stakeBTokens, unstakeBTokens, swapTokens, supplyToBlend, borrowFromBlend,
        signAndSubmitTransaction, hnet, hacct, hsim, hs, hfi]
  | errorResult msg =>
    cases msg <;> cases hfi : env.freighterInstalled <;>
      simp [stakeBTokens, unstakeBTokens, swapTokens, supplyToBlend, borrowFromBlend,
        signAndSubmitTransaction, hnet, hacct, hsim, hs, hfi]

/-- Witness for C4: in `signRejectEnv` the borrow pipeline fails and its
run contains no sendTransaction call. -/
theorem c4_signing_failure_blocks_submission_witness :
    (∃ e, (borrowFromBlend signRejectEnv "native" 5 "GUSER").1 = Except.error e) ∧
    ∀ s, Event.sendCall s ∉ (borrowFromBlend signRejectEnv "native" 5 "GUSER").2 :=
  (c4_signing_failure_blocks_submission signRejectEnv "TESTNET" none
    5 1 99 "GUSER" "native" "tb" "native" true rfl rfl rfl
    (fun x h => by simp [signRejectEnv] at h)).2.2.2.2

/-- Every simulateCall event of a stake run carries the stake_blend
invocation. -/
theorem stake_simulateCall_eq (env : OpEnv) (amount : Int) (user : String)
    (c : ContractCall)
    (h : Event.simulateCall c ∈ (stakeBTokens env amount user).2) :
    c = ⟨"stake_blend", [.address user, .u128 amount]⟩ := by
  simp only [stakeBTokens, signAndSubmitTransaction] at h
  repeat' split at h
  all_goals simp_all

/-- Every simulateCall event of an unstake run carries the unstake_blend
invocation. -/
theorem unstake_simulateCall_eq (env : OpEnv) (amount : Int) (user : String)
    (c : ContractCall)
    (h : Event.simulateCall c ∈ (unstakeBTokens env amount user).2) :
    c = ⟨"unstake_blend", [.address user, .u128 amount]⟩ := by
  simp only [unstakeBTokens, signAndSubmitTransaction] at h
  repeat' split at h
  all_goals simp_all

/-- Every simulateCall event of a swap run carries the swap_tokens
invocation. -/
theorem swap_simulateCall_eq (env : OpEnv) (tokenA tokenB : String)
    (amountIn minAmountOut deadline : Int) (user : String) (c : ContractCall)
    (h : Event.simulateCall c ∈
      (swapTokens env tokenA tokenB amountIn minAmountOut deadline user).2) :
    c = ⟨"swap_tokens",
      [.address user, .address tokenA, .address tokenB,
        .u128 amountIn, .u128 minAmountOut, .u64 deadline]⟩ := by
  simp only [swapTokens, signAndSubmitTransaction] at h
  repeat' split at h
  all_goals simp_all

/-- Every simulateCall event of a supply run carries the supply_to_blend
invocation. -/
theorem supply_simulateCall_eq (env : OpEnv) (asset : String) (amount : Int)
    (asCollateral : Bool) (user : String) (c : ContractCall)
    (h : Event.simulateCall c ∈ (supplyToBlend env asset amount asCollateral user).2) :
    c = ⟨"supply_to_blend",
      [.address user, .address asset, .u128 amount, .scBool asCollateral]⟩ := by
  simp only [supplyToBlend, signAndSubmitTransaction] at h
  repeat' split at h
  all_goals simp_all

/-- Every simulateCall event of a borrow run carries the borrow_from_blend
invocation. -/
theorem borrow_simulateCall_eq (env : OpEnv) (asset : String) (amount : Int)
    (user : String) (c : ContractCall)
    (h : Event.simulateCall c ∈ (borrowFromBlend env asset amount user).2) :
    c = ⟨"borrow_from_blend", [.address user, .address asset, .u128 amount]⟩ := by
  simp only [borrowFromBlend, signAndSubmitTransaction] at h
  repeat' split at h
  all_goals simp_all

/-- C8: in every environment, each operation pipeline builds and
simulates exactly the wire-contract invocation of its operation - method
name and ordered argument list are those of the contract surface:
stake_blend(address, u128), unstake_blend(address, u128),
swap_tokens(address, address, address, u128, u128, u64),
supply_to_blend(address, address, u128, bool),
borrow_from_blend(address, address, u128). -/
theorem c8_wire_contract
    (env : OpEnv) (amount minOut deadline : Int)
    (user tokenA tokenB asset : String) (asCollateral : Bool) (c : ContractCall) :
    (Event.simulateCall c ∈ (stakeBTokens env amount user).2 →
      c = ⟨"stake_blend", [.address user, .u128 amount]⟩) ∧
    (Event.simulateCall c ∈ (unstakeBTokens env amount user).2 →
      c = ⟨"unstake_blend", [.address user, .u128 amount]⟩) ∧
    (Event.simulateCall c ∈ (swapTokens env tokenA tokenB amount minOut deadline user).2 →
      c = ⟨"swap_tokens",
        [.address user, .address tokenA, .address tokenB,
          .u128 amount, .u128 minOut, .u64 deadline]⟩) ∧
    (Event.simulateCall c ∈ (supplyToBlend env asset amount asCollateral user).2 →
      c = ⟨"supply_to_blend",
        [.address user, .address asset, .u128 amount, .scBool asCollateral]⟩) ∧
    (Event.simulateCall c ∈ (borrowFromBlend env asset amount user).2 →
      c = ⟨"borrow_from_blend", [.address user, .address asset, .u128 amount]⟩) :=
  ⟨fun h => stake_simulateCall_eq env amount user c h,
    fun h => unstake_simulateCall_eq env amount user c h,
    fun h => swap_simulateCall_eq env tokenA tokenB amount minOut deadline user c h,
    fun h => supply_simulateCall_eq env asset amount asCollateral user c h,
    fun h => borrow_simulateCall_eq env asset amount user c h⟩

/-- Witness for C8: the supply pipeline in the all-success environment
does reach simulation, and the invocation it simulates is the
supply_to_blend wire call. -/
theorem c8_wire_contract_witness :
    Event.simulateCall
        ⟨"supply_to_blend",
          [.address "GUSER", .address "native", .u128 5, .scBool true]⟩ ∈
      (supplyToBlend successEnv "native" 5 true "GUSER").2 ∧
    (⟨"supply_to_blend", [.address "GUSER", .address "native", .u128 5, .scBool true]⟩ :
        ContractCall) =
      ⟨"supply_to_blend", [.address "GUSER", .address "native", .u128 5, .scBool true]⟩ :=
  ⟨by decide,
    (c8_wire_contract successEnv 5 1 99 "GUSER" "tA" "tB" "native" true
      ⟨"supply_to_blend", [.address "GUSER", .address "native", .u128 5, .scBool true]⟩).2.2.2.1
      (by decide)⟩

/-- When the first poll reports SUCCESS the confirmation loop returns
after exactly one poll. -/
theorem waitForTransaction_firstSuccess (poll : Nat → PollObs)
    (h : poll 0 = PollObs.response PollResponse.success) :
    waitForTransaction poll = (Except.ok (), 1) := by
  rw [waitForTransaction, maxAttempts, show (30 : Nat) = 29 + 1 from rfl]
  simp only [waitLoop, waitStep, h]

/-- C9 counterexample: the claim says every operation facade returns the
transaction hash on success, but on a fully successful run whose
submission hash is "abc123" stakeBTokens resolves with undefined, which
is not the hash string. -/
theorem c9_counterexample :
    (stakeBTokens successEnv 5 "GUSER").1 = Except.ok JsVal.undef ∧
    JsVal.undef ≠ JsVal.str "abc123" := by
  decide

/-- C9 amended: on a fully successful run, swap, supply and borrow
resolve with the transaction hash reported by the submission; stake
resolves with undefined, and unstake resolves with the simulation's
decoded reward value (the bigint 0 when the simulation carried none) -
neither returns the hash.  Failures on every other path are thrown
errors. -/
theorem c9_success_values
    (env : OpEnv) (net x hash : String) (rv : Option Int)
    (amount minOut deadline : Int) (user tokenA tokenB asset : String)
    (asCollateral : Bool)
    (hnet : env.network = Except.ok net) (hacct : env.account = Except.ok ())
    (hsim : env.simulate = SimOutcome.ok rv)
    (hfi : env.freighterInstalled = true) (hs : env.sign = SignOutcome.signed x)
    (hsend : env.send = SendOutcome.result "PENDING" hash)
    (hpoll : env.poll 0 = PollObs.response PollResponse.success) :
    (swapTokens env tokenA tokenB amount minOut deadline user).1 =
      Except.ok (JsVal.str hash) ∧
    (supplyToBlend env asset amount asCollateral user).1 =
      Except.ok (JsVal.str hash) ∧
    (borrowFromBlend env asset amount user).1 = Except.ok (JsVal.str hash) ∧
    (stakeBTokens env amount user).1 = Except.ok JsVal.undef ∧
    (unstakeBTokens env amount user).1 = Except.ok (JsVal.int (rv.getD 0)) := by
  have hw := waitForTransaction_firstSuccess env.poll hpoll
  simp [stakeBTokens, unstakeBTokens, swapTokens, supplyToBlend, borrowFromBlend,
    signAndSubmitTransaction, hnet, hacct, hsim, hfi, hs, hsend, hw]

/-- Witness for the amended C9 theorem, at the all-success environment. -/
theorem c9_success_values_witness :
    (swapTokens successEnv "tA" "tB" 5 1 99 "GUSER").1 =
      Except.ok (JsVal.str "abc123") ∧
    (supplyToBlend successEnv "native" 5 true "GUSER").1 =
      Except.ok (JsVal.str "abc123") ∧
    (borrowFromBlend successEnv "native" 5 "GUSER").1 =
      Except.ok (JsVal.str "abc123") ∧
    (stakeBTokens successEnv 5 "GUSER").1 = Except.ok JsVal.undef ∧
    (unstakeBTokens successEnv 5 "GUSER").1 = Except.ok (JsVal.int 0) :=
  c9_success_values successEnv "TESTNET" "SIGNEDXDR" "abc123" none
    5 1 99 "GUSER" "tA" "tB" "native" true rfl rfl rfl rfl rfl rfl rfl

/-- C10: the read-only queries are total functions of the environment
(no failure escapes the outer catch), and on every failure mode -
getNetwork reporting an error, getAccount throwing, the simulation call
throwing, a simulation error, or a missing return value -
getUserPosition returns the fixed placeholder object (empty supplied and
borrowed maps, healthFactor 1.5) and getHealthStatus returns 1.5, so a
caller cannot distinguish a failed query from a genuinely healthy
position. -/
theorem c10_query_fallbacks (env : QueryEnv) :
    (env.network = Except.error () →
      getUserPosition env = placeholderPosition ∧
      getHealthStatus env = some ⟨3, -1⟩) ∧
    (∀ e, env.account = Except.error e →
      getUserPosition env = placeholderPosition ∧
      getHealthStatus env = some ⟨3, -1⟩) ∧
    (∀ e, env.simulate = QuerySimOutcome.exn e →
      getUserPosition env = placeholderPosition ∧
      getHealthStatus env = some ⟨3, -1⟩) ∧
    (∀ e, env.simulate = QuerySimOutcome.simError e →
      getUserPosition env = placeholderPosition ∧
      getHealthStatus env = some ⟨3, -1⟩) ∧
    (env.simulate = QuerySimOutcome.ok none →
      getUserPosition env = placeholderPosition ∧
      getHealthStatus env = some ⟨3, -1⟩) := by
  refine ⟨?_, ?_, ?_, ?_, ?_⟩
  · intro h
    simp [getUserPosition, getUserPositionBody, getHealthStatus, getHealthStatusBody, h]
  · intro e h
    rcases hn : env.network with u | net <;>
      simp [getUserPosition, getUserPositionBody, getHealthStatus, getHealthStatusBody,
        hn, h]
  · intro e h
    rcases hn : env.network with u | net <;>
      rcases ha : env.account with e2 | u2 <;>
        simp [getUserPosition, getUserPositionBody, getHealthStatus, getHealthStatusBody,
          hn, ha, h]
  · intro e h
    rcases hn : env.network with u | net <;>
      rcases ha : env.account with e2 | u2 <;>
        simp [getUserPosition, getUserPositionBody, getHealthStatus, getHealthStatusBody,
          hn, ha, h, placeholderPosition]
  · intro h
    rcases hn : env.network with u | net <;>
      rcases ha : env.account with e2 | u2 <;>
        simp [getUserPosition, getUserPositionBody, getHealthStatus, getHealthStatusBody,
          hn, ha, h, placeholderPosition]

/-- Witness for C10: a run whose simulation reports an error yields the
placeholder position and the 1.5 health value. -/
theorem c10_query_fallbacks_witness :
    getUserPosition ⟨Except.ok "TESTNET", Except.ok (), QuerySimOutcome.simError "boom"⟩ =
      placeholderPosition ∧
    getHealthStatus ⟨Except.ok "TESTNET", Except.ok (), QuerySimOutcome.simError "boom"⟩ =
      some ⟨3, -1⟩ :=
  (c10_query_fallbacks
    ⟨Except.ok "TESTNET", Except.ok (), QuerySimOutcome.simError "boom"⟩).2.2.2.1
    "boom" rfl

/-- C7: the Borrow screen's health-factor guard.  With a connected
wallet, when the projected health factor is not the sentinel "Error" and
its numeric value is strictly below the 1.1 minimum, validateForm
records the HealthFactorTooLow general error and handleBorrow performs
no action at all - no toast and no network call.  When the projected
health factor equals the minimum exactly and the rest of the form is
valid, handleBorrow proceeds to the borrow submission. -/
theorem c7_health_factor_guard (net : BorrowNet) (st : BorrowState) :
    (st.isConnected = true → st.publicKey.isSome = true →
      st.projectedHealth ≠ "Error" →
      jsLt (jsNumberOfString st.projectedHealth) onePointOne = true →
      (validateForm st).general =
        some "This borrow would make your position too risky (health factor < 1.1)" ∧
      handleBorrow net st = []) ∧
    (∀ pk a p, st.isConnected = true → st.publicKey = some pk →
      jsNumberOfString st.projectedHealth = onePointOne →
      validateAmount st = none →
      selectedAsset st = some a →
      jsMul (jsNumberOfString st.amount) (rnd52 (10 ^ a.decimals) 1) = some p →
      UiEvent.borrowCall st.asset (dFloor p) pk ∈ handleBorrow net st) := by
  constructor
  · intro hconn hpk hne hlt
    have hpk2 : st.publicKey ≠ none := by
      cases hp : st.publicKey with
      | none => rw [hp] at hpk; simp at hpk
      | some v => simp
    have hval : (validateForm st).general =
        some "This borrow would make your position too risky (health factor < 1.1)" := by
      simp [validateForm, hconn, hpk2, hne, hlt]
    refine ⟨hval, ?_⟩
    have hok : validateFormOk st = false := by
      simp [validateFormOk, hval]
    simp [handleBorrow, hok]
  · intro pk a p hconn hpk heq hamt hfind hmul
    have hlt : jsLt (jsNumberOfString st.projectedHealth) onePointOne = false := by
      rw [heq]
      show jsLt (rnd52 11 10) (rnd52 11 10) = false
      decide
    have hval : validateForm st = ⟨none, none⟩ := by
      simp [validateForm, hconn, hpk, hamt, hlt]
    have hok : validateFormOk st = true := by
      simp [validateFormOk, hval]
    simp [handleBorrow, hok, hfind, hmul, hpk]
    rcases net.borrowResult with e | hash <;> simp

/-- Witness for C7: at projected health 1.099 the form records the risk
error and the handler does nothing; at exactly 1.1 the handler reaches
the borrow call with the scaled amount. -/
theorem c7_health_factor_guard_witness :
    ((validateForm rejectState).general =
        some "This borrow would make your position too risky (health factor < 1.1)" ∧
      handleBorrow demoNet rejectState = []) ∧
    UiEvent.borrowCall "native" 50000000 "GUSER" ∈ handleBorrow demoNet proceedState := by
  constructor
  · exact (c7_health_factor_guard demoNet rejectState).1 rfl rfl (by decide) (by decide)
  · exact (c7_health_factor_guard demoNet proceedState).2 "GUSER" ⟨"native", "XLM", 7, 7000⟩
      ⟨390625, 7⟩ rfl rfl (by decide) (by decide) (by decide) (by decide)

end Blendifi
